import Mathlib

/-!
Verification of the bee-colony system-dynamics model (`script.py`).

The engine is a discrete-time stock-and-flow recurrence (BPTK-Py model with
`starttime=0`, `stoptime=years`, `dt=1.0`, i.e. forward-Euler stepping with a
unit time step).  All arithmetic is embedded over `ℚ`; the Python decimal
literals (0.045, 0.5, 7.2, ...) denote the corresponding exact rationals.
-/

namespace BeeModel

/-- Constant `START_YEAR = 2022` (module constant in `script.py`). -/
def START_YEAR : ℤ := 2022

/-- Constant `DEFAULT_INITIAL_COLONIES = 182_300`. -/
def DEFAULT_INITIAL_COLONIES : ℚ := 182300

/-- Constant `BASE_GROWTH_RATE = 0.045`. -/
def BASE_GROWTH_RATE : ℚ := 0.045

/-- Constant `BASE_LOSS_RATE = 0.04`. -/
def BASE_LOSS_RATE : ℚ := 0.04

/-- Constant `CARRYING_CAPACITY = 350_000`. -/
def CARRYING_CAPACITY : ℚ := 350000

/-- Constant `CLIMATE_LOSS_FACTOR = 0.5`. -/
def CLIMATE_LOSS_FACTOR : ℚ := 0.5

/-- Constant `CLIMATE_GROWTH_FACTOR = 1.0`. -/
def CLIMATE_GROWTH_FACTOR : ℚ := 1.0

/-- Constant `DENSITY_LOSS_FACTOR = 0.1`. -/
def DENSITY_LOSS_FACTOR : ℚ := 0.1

/-- Constant `VALUE_PER_COLONY = 1_585`. -/
def VALUE_PER_COLONY : ℚ := 1585

/-- Constant `ECONOMIC_VALUE_SCALER = 0.6`. -/
def ECONOMIC_VALUE_SCALER : ℚ := 0.6

/-- Constant `HONEY_MIN = 7.2`. -/
def HONEY_MIN : ℚ := 7.2

/-- Constant `HONEY_MAX = 29.9`. -/
def HONEY_MAX : ℚ := 29.9

/-- Average of `WINTER_BEE_LIFESPAN_MONTHS = (5, 6)`: `avg_winter_months = sum(...) / 2.0`. -/
def avg_winter_months : ℚ := (5 + 6) / 2

/-- Penalty `winter_loss_penalty = max(0.0, min(1.0, (6.0 - avg_winter_months) / 6.0))`. -/
def winter_loss_penalty : ℚ := max 0 (min 1 ((6 - avg_winter_months) / 6))

/-- Dataclass `ScenarioParams`: three normalized drivers (`script.py`). -/
structure ScenarioParams where
  environment_stress : ℚ
  disease_management : ℚ
  climate_factor : ℚ
  deriving Repr, DecidableEq

/-- Converter `effective_growth`:
`base_growth_rate * (1 + 0.5*(1-env_stress) + 0.5*disease_mgmt) * (0.7 + CLIMATE_GROWTH_FACTOR*climate_factor)`. -/
def effective_growth (p : ScenarioParams) : ℚ :=
  BASE_GROWTH_RATE * (1 + 0.5 * (1 - p.environment_stress) + 0.5 * p.disease_management)
    * (0.7 + CLIMATE_GROWTH_FACTOR * p.climate_factor)

/-- Converter `effective_loss` (takes the current stock `bee_colonies`):
`base_loss_rate * ((1 + env_stress + 0.5*(1-disease_mgmt) + winter_loss_penalty)
  * (1 + climate_loss_factor*(1-climate_factor))
  * (1 + density_loss_factor*(bee_colonies/carrying_capacity)))`. -/
def effective_loss (p : ScenarioParams) (bee_colonies : ℚ) : ℚ :=
  BASE_LOSS_RATE *
    ((1 + p.environment_stress + 0.5 * (1 - p.disease_management) + winter_loss_penalty)
      * (1 + CLIMATE_LOSS_FACTOR * (1 - p.climate_factor))
      * (1 + DENSITY_LOSS_FACTOR * (bee_colonies / CARRYING_CAPACITY)))

/-- Flow `colony_growth = bee_colonies * effective_growth * (1 - bee_colonies/carrying_capacity)`. -/
def colony_growth (p : ScenarioParams) (bee_colonies : ℚ) : ℚ :=
  bee_colonies * effective_growth p * (1 - bee_colonies / CARRYING_CAPACITY)

/-- Flow `colony_losses = bee_colonies * effective_loss`. -/
def colony_losses (p : ScenarioParams) (bee_colonies : ℚ) : ℚ :=
  bee_colonies * effective_loss p bee_colonies

/-- One Euler step of the stock equation `bee_colonies.equation = colony_growth - colony_losses`
with `dt = 1`:  `next = current + (growth_flow - loss_flow)`. -/
def bee_colonies_step (p : ScenarioParams) (bee_colonies : ℚ) : ℚ :=
  bee_colonies + (colony_growth p bee_colonies - colony_losses p bee_colonies)

/-- The stock `bee_colonies` at simulation step `n` (initial value
`DEFAULT_INITIAL_COLONIES`, then one Euler step per year). -/
def bee_colonies_at (p : ScenarioParams) : Nat → ℚ
  | 0 => DEFAULT_INITIAL_COLONIES
  | n + 1 => bee_colonies_step p (bee_colonies_at p n)

/-- Converter `honey_yield_per_colony =
(honey_min + climate_factor*(honey_max - honey_min)) * (1 - 0.5*env_stress)`. -/
def honey_yield_per_colony (p : ScenarioParams) : ℚ :=
  (HONEY_MIN + p.climate_factor * (HONEY_MAX - HONEY_MIN)) * (1 - 0.5 * p.environment_stress)

/-- Converter `honey_production_tons = bee_colonies * honey_yield_per_colony / 1000`. -/
def honey_production_tons (p : ScenarioParams) (bee_colonies : ℚ) : ℚ :=
  bee_colonies * honey_yield_per_colony p / 1000

/-- Converter `economic_value_chf = bee_colonies * value_per_colony * ECONOMIC_VALUE_SCALER`. -/
def economic_value_chf (bee_colonies : ℚ) : ℚ :=
  bee_colonies * VALUE_PER_COLONY * ECONOMIC_VALUE_SCALER

/-- One row of the time series built by `simulate_scenario`. -/
structure TimeSeriesRecord where
  t : ℤ
  bee_colonies : ℚ
  honey_yield_per_colony : ℚ
  honey_production_tons : ℚ
  economic_value_chf : ℚ
  deriving Repr, DecidableEq

/-- The record appended for simulation step `step` in `simulate_scenario`'s loop. -/
def record_at (p : ScenarioParams) (step : Nat) : TimeSeriesRecord :=
  let colonies := bee_colonies_at p step
  { t := START_YEAR + step
    bee_colonies := colonies
    honey_yield_per_colony := honey_yield_per_colony p
    honey_production_tons := honey_production_tons p colonies
    economic_value_chf := economic_value_chf colonies }

/-- The list of records built by `simulate_scenario`'s loop
`for step in range(int(model.starttime), int(model.stoptime) + 1)`, i.e. the
steps `0, 1, ..., years` (empty when `years < 0`). -/
def simulate_records (years : ℤ) (p : ScenarioParams) : List TimeSeriesRecord :=
  (List.range (years + 1).toNat).map (record_at p)

/-- Function `simulate_scenario(years, params)`: builds the records and returns
`pd.DataFrame(records).set_index("t")`.  When the record list is empty (any
negative `years`), the empty DataFrame has no column `"t"` and `set_index`
raises a `KeyError`; this is modelled as the `Except.error` branch. -/
def simulate_scenario (years : ℤ) (p : ScenarioParams) :
    Except String (List TimeSeriesRecord) :=
  let records := simulate_records years p
  if records.isEmpty then Except.error "KeyError: t" else Except.ok records

/-- One row of the loss table built by `compute_losses_vs_baseline`. -/
structure LossRecord where
  t : ℤ
  economic_loss_chf : ℚ
  honey_loss_tons : ℚ
  cumulative_economic_loss_chf : ℚ
  cumulative_honey_loss_tons : ℚ
  deriving Repr, DecidableEq

/-- Join `baseline.join(scenario, how="inner", ...)`: pair each baseline row with
the scenario row having the same index `t`, dropping baseline rows without a
match (pandas inner join on the unique year index; row order follows the
baseline frame). -/
def inner_join (baseline scenario : List TimeSeriesRecord) :
    List (TimeSeriesRecord × TimeSeriesRecord) :=
  baseline.filterMap fun b =>
    (scenario.find? fun s => s.t == b.t).map fun s => (b, s)

/-- Running-sum pass over per-year losses: the pandas `cumsum()` of the
`economic_loss_chf` and `honey_loss_tons` columns, threading the two
accumulators in row order. -/
def with_cumsum : List (ℤ × ℚ × ℚ) → ℚ → ℚ → List LossRecord
  | [], _, _ => []
  | (t, el, hl) :: rest, ce, ch =>
    { t := t
      economic_loss_chf := el
      honey_loss_tons := hl
      cumulative_economic_loss_chf := ce + el
      cumulative_honey_loss_tons := ch + hl } :: with_cumsum rest (ce + el) (ch + hl)

/-- Function `compute_losses_vs_baseline(baseline, scenario)`:
inner join on the year index, then
`economic_loss_chf = economic_value_chf_baseline - economic_value_chf_scenario`,
`honey_loss_tons = honey_production_tons_baseline - honey_production_tons_scenario`,
and `cumsum()` of both loss columns. -/
def compute_losses_vs_baseline (baseline scenario : List TimeSeriesRecord) :
    List LossRecord :=
  with_cumsum
    ((inner_join baseline scenario).map fun bs =>
      (bs.1.t,
       bs.1.economic_value_chf - bs.2.economic_value_chf,
       bs.1.honey_production_tons - bs.2.honey_production_tons))
    0 0

/-- Function `run_bee_scenarios(years, baseline_params, scenario_params)`: run the
engine twice, then compute the losses (the fallible `simulate_scenario` is
threaded through `Except`). -/
def run_bee_scenarios (years : ℤ) (baseline_params scenario_params : ScenarioParams) :
    Except String (List TimeSeriesRecord × List TimeSeriesRecord × List LossRecord) := do
  let df_baseline ← simulate_scenario years baseline_params
  let df_scenario ← simulate_scenario years scenario_params
  pure (df_baseline, df_scenario, compute_losses_vs_baseline df_baseline df_scenario)

/-- Claim-side formulation of the per-step difference equation, written from
the spec's words: `next_colonies = current_colonies + growth_flow - loss_flow`
with the effective growth and loss rates spelled out as in the spec
(`climate_loss_sensitivity` is `CLIMATE_LOSS_FACTOR`, `density_loss_sensitivity`
is `DENSITY_LOSS_FACTOR`), and no floor applied to the result. -/
def claimed_next_colonies (p : ScenarioParams) (current_colonies : ℚ) : ℚ :=
  let effective_growth_rate :=
    BASE_GROWTH_RATE
      * (1 + 0.5 * (1 - p.environment_stress) + 0.5 * p.disease_management)
      * (0.7 + p.climate_factor)
  let effective_loss_rate :=
    BASE_LOSS_RATE
      * (1 + p.environment_stress + 0.5 * (1 - p.disease_management) + winter_loss_penalty)
      * (1 + CLIMATE_LOSS_FACTOR * (1 - p.climate_factor))
      * (1 + DENSITY_LOSS_FACTOR * current_colonies / CARRYING_CAPACITY)
  let growth_flow :=
    current_colonies * effective_growth_rate * (1 - current_colonies / CARRYING_CAPACITY)
  let loss_flow := current_colonies * effective_loss_rate
  current_colonies + growth_flow - loss_flow

/-- C1: every simulation step updates the colony stock by exactly the claimed
difference equation `next = current + growth_flow - loss_flow`, with the
claimed effective growth and loss rates and no floor applied to the result. -/
theorem step_matches_claimed_difference_equation
    (p : ScenarioParams) (current_colonies : ℚ) :
    bee_colonies_step p current_colonies = claimed_next_colonies p current_colonies := by
  simp only [bee_colonies_step, colony_growth, colony_losses, effective_growth,
    effective_loss, claimed_next_colonies, CLIMATE_GROWTH_FACTOR]
  ring

/-- C2: for every non-negative horizon `years`, `simulate_scenario` succeeds and
returns exactly `years + 1` records in chronological order, the record at
index `i` carrying year `START_YEAR + i` (hence `record[0].t = START_YEAR`). -/
theorem simulate_horizon_length (years : ℕ) (p : ScenarioParams) :
    ∃ records : List TimeSeriesRecord,
      simulate_scenario (years : ℤ) p = Except.ok records ∧
      records.length = years + 1 ∧
      ∀ i : ℕ, ∀ h : i < records.length, records[i].t = START_YEAR + i := by
  have hn : ((years : ℤ) + 1).toNat = years + 1 := by omega
  have hrec : simulate_records (years : ℤ) p = (List.range (years + 1)).map (record_at p) := by
    simp [simulate_records, hn]
  have hlen : (simulate_records (years : ℤ) p).length = years + 1 := by
    simp [hrec]
  refine ⟨simulate_records (years : ℤ) p, ?_, hlen, ?_⟩
  · have hne : (simulate_records (years : ℤ) p).isEmpty = false := by
      cases hcase : simulate_records (years : ℤ) p with
      | nil => rw [hcase] at hlen; simp at hlen
      | cons a l => simp
    simp [simulate_scenario, hne]
  · intro i h
    rw [hlen] at h
    simp only [hrec, List.getElem_map, List.getElem_range, record_at]

/-- C5: for every negative `years`, the simulation produces no record at all
(the stepping loop never runs) and `simulate_scenario` fails with an error
instead of returning a (possibly empty) series. -/
theorem simulate_negative_years_fails (years : ℤ) (p : ScenarioParams)
    (h : years < 0) :
    simulate_records years p = [] ∧
      simulate_scenario years p = Except.error "KeyError: t" := by
  have hn : (years + 1).toNat = 0 := by omega
  constructor
  · simp [simulate_records, hn]
  · simp [simulate_scenario, simulate_records, hn]

/-- C5 witness: at the concrete input `years = -1`, the engine fails with an
error and produces no record. -/
theorem simulate_negative_years_fails_witness :
    simulate_records (-1) ⟨0.3, 0.7, 0.6⟩ = [] ∧
      simulate_scenario (-1) ⟨0.3, 0.7, 0.6⟩ = Except.error "KeyError: t" :=
  simulate_negative_years_fails (-1) ⟨0.3, 0.7, 0.6⟩ (by norm_num)

/-- C8: `simulate_scenario` is a deterministic function of `(years, params)`:
two calls with identical arguments yield identical series (the engine reads no
hidden state and uses no randomness). -/
theorem simulate_deterministic (y₁ y₂ : ℤ) (p₁ p₂ : ScenarioParams)
    (hy : y₁ = y₂) (hp : p₁ = p₂) :
    simulate_scenario y₁ p₁ = simulate_scenario y₂ p₂ := by
  rw [hy, hp]

/-- C8 witness: two calls with the identical concrete arguments agree. -/
theorem simulate_deterministic_witness :
    simulate_scenario 20 ⟨0.3, 0.7, 0.6⟩ = simulate_scenario 20 ⟨0.3, 0.7, 0.6⟩ :=
  simulate_deterministic 20 20 ⟨0.3, 0.7, 0.6⟩ ⟨0.3, 0.7, 0.6⟩ rfl rfl

/-- C2 witness: the theorem instantiated at the concrete horizon `years = 1`. -/
theorem simulate_horizon_length_witness :
    ∃ records : List TimeSeriesRecord,
      simulate_scenario ((1 : ℕ) : ℤ) ⟨0.3, 0.7, 0.6⟩ = Except.ok records ∧
      records.length = 1 + 1 ∧
      ∀ i : ℕ, ∀ h : i < records.length, records[i].t = START_YEAR + i :=
  simulate_horizon_length 1 ⟨0.3, 0.7, 0.6⟩

lemma with_cumsum_length (l : List (ℤ × ℚ × ℚ)) (ce ch : ℚ) :
    (with_cumsum l ce ch).length = l.length := by
  induction l generalizing ce ch with
  | nil => rfl
  | cons x rest ih =>
    obtain ⟨t, el, hl⟩ := x
    simp [with_cumsum, ih]

lemma with_cumsum_map_el (l : List (ℤ × ℚ × ℚ)) (ce ch : ℚ) :
    (with_cumsum l ce ch).map LossRecord.economic_loss_chf = l.map fun x => x.2.1 := by
  induction l generalizing ce ch with
  | nil => rfl
  | cons x rest ih =>
    obtain ⟨t, el, hl⟩ := x
    simp [with_cumsum, ih]

lemma with_cumsum_map_hl (l : List (ℤ × ℚ × ℚ)) (ce ch : ℚ) :
    (with_cumsum l ce ch).map LossRecord.honey_loss_tons = l.map fun x => x.2.2 := by
  induction l generalizing ce ch with
  | nil => rfl
  | cons x rest ih =>
    obtain ⟨t, el, hl⟩ := x
    simp [with_cumsum, ih]

lemma with_cumsum_getElem (l : List (ℤ × ℚ × ℚ)) (ce ch : ℚ) (i : ℕ)
    (h : i < l.length) (h2 : i < (with_cumsum l ce ch).length) :
    (with_cumsum l ce ch)[i] =
      { t := l[i].1
        economic_loss_chf := l[i].2.1
        honey_loss_tons := l[i].2.2
        cumulative_economic_loss_chf := ce + (((l.map fun x => x.2.1).take (i + 1)).sum)
        cumulative_honey_loss_tons := ch + (((l.map fun x => x.2.2).take (i + 1)).sum) } := by
  induction l generalizing ce ch i with
  | nil => simp at h
  | cons x rest ih =>
    obtain ⟨t, el, hl⟩ := x
    cases i with
    | zero => simp [with_cumsum]
    | succ j =>
      have hj : j < rest.length := by simpa using h
      have hj2 : j < (with_cumsum rest (ce + el) (ch + hl)).length := by
        rw [with_cumsum_length]; exact hj
      simp only [with_cumsum, List.getElem_cons_succ, List.map_cons,
        List.take_succ_cons, List.sum_cons]
      rw [ih (ce + el) (ch + hl) j hj hj2]
      simp only [LossRecord.mk.injEq, true_and]
      exact ⟨by ring, by ring⟩

/-- C3: for every aligned year `i` of the comparator's output,
`economic_loss = baseline.economic_value - scenario.economic_value` and
`honey_loss = baseline.honey_production - scenario.honey_production` (raw
signed differences), and each cumulative field is the running sum, in
chronological order, of the corresponding per-year loss field of this
invocation's output (the sums start from 0 afresh on every invocation). -/
theorem losses_per_year_and_cumulative (baseline scenario : List TimeSeriesRecord) :
    (compute_losses_vs_baseline baseline scenario).length
      = (inner_join baseline scenario).length ∧
    ∀ i : ℕ, ∀ hm : i < (inner_join baseline scenario).length,
      ∀ hl : i < (compute_losses_vs_baseline baseline scenario).length,
      (compute_losses_vs_baseline baseline scenario)[i].t
          = (inner_join baseline scenario)[i].1.t ∧
      (compute_losses_vs_baseline baseline scenario)[i].economic_loss_chf
          = (inner_join baseline scenario)[i].1.economic_value_chf
            - (inner_join baseline scenario)[i].2.economic_value_chf ∧
      (compute_losses_vs_baseline baseline scenario)[i].honey_loss_tons
          = (inner_join baseline scenario)[i].1.honey_production_tons
            - (inner_join baseline scenario)[i].2.honey_production_tons ∧
      (compute_losses_vs_baseline baseline scenario)[i].cumulative_economic_loss_chf
          = (((compute_losses_vs_baseline baseline scenario).map
              LossRecord.economic_loss_chf).take (i + 1)).sum ∧
      (compute_losses_vs_baseline baseline scenario)[i].cumulative_honey_loss_tons
          = (((compute_losses_vs_baseline baseline scenario).map
              LossRecord.honey_loss_tons).take (i + 1)).sum := by
  constructor
  · simp [compute_losses_vs_baseline, with_cumsum_length]
  · intro i hm hl
    have hmlen : i < ((inner_join baseline scenario).map fun bs =>
        ((bs.1.t : ℤ),
         bs.1.economic_value_chf - bs.2.economic_value_chf,
         bs.1.honey_production_tons - bs.2.honey_production_tons)).length := by
      simpa using hm
    have hl' : i < (with_cumsum ((inner_join baseline scenario).map fun bs =>
        ((bs.1.t : ℤ),
         bs.1.economic_value_chf - bs.2.economic_value_chf,
         bs.1.honey_production_tons - bs.2.honey_production_tons)) 0 0).length := hl
    have hkey := with_cumsum_getElem _ 0 0 i hmlen hl'
    simp only [compute_losses_vs_baseline]
    rw [hkey]
    simp [with_cumsum_map_el, with_cumsum_map_hl, List.map_map, List.getElem_map]

/-- C3 witness: the theorem instantiated at two concrete one-record series,
with the index hypotheses discharged at `i = 0`. -/
theorem losses_per_year_and_cumulative_witness :
    (compute_losses_vs_baseline (simulate_records 0 ⟨0.3, 0.7, 0.6⟩)
        (simulate_records 0 ⟨0.8, 0.3, 0.4⟩)).length
      = (inner_join (simulate_records 0 ⟨0.3, 0.7, 0.6⟩)
          (simulate_records 0 ⟨0.8, 0.3, 0.4⟩)).length ∧
    (compute_losses_vs_baseline (simulate_records 0 ⟨0.3, 0.7, 0.6⟩)
        (simulate_records 0 ⟨0.8, 0.3, 0.4⟩))[0].economic_loss_chf
      = (inner_join (simulate_records 0 ⟨0.3, 0.7, 0.6⟩)
          (simulate_records 0 ⟨0.8, 0.3, 0.4⟩))[0].1.economic_value_chf
        - (inner_join (simulate_records 0 ⟨0.3, 0.7, 0.6⟩)
            (simulate_records 0 ⟨0.8, 0.3, 0.4⟩))[0].2.economic_value_chf := by
  have hm : 0 < (inner_join (simulate_records 0 ⟨0.3, 0.7, 0.6⟩)
      (simulate_records 0 ⟨0.8, 0.3, 0.4⟩)).length := by
    simp [inner_join, simulate_records, record_at, List.range_succ]
  have hl : 0 < (compute_losses_vs_baseline (simulate_records 0 ⟨0.3, 0.7, 0.6⟩)
      (simulate_records 0 ⟨0.8, 0.3, 0.4⟩)).length := by
    simpa [compute_losses_vs_baseline, with_cumsum_length] using hm
  have h := losses_per_year_and_cumulative (simulate_records 0 ⟨0.3, 0.7, 0.6⟩)
    (simulate_records 0 ⟨0.8, 0.3, 0.4⟩)
  exact ⟨h.1, (h.2 0 hm hl).2.1⟩

/-- C4: every record of a simulated series derives its quantities from the
current (pre-update) colony count of its year: the record at index `i` carries
the stock after exactly `i` steps, its honey yield is the climate/stress
formula, honey production is `colonies * yield / 1000` and economic value is
`colonies * value_per_colony * scaler`, all at that pre-update stock; the
first record carries the initial stock before any step is applied. -/
theorem derived_quantities_use_pre_update_stock (years : ℕ) (p : ScenarioParams)
    (records : List TimeSeriesRecord)
    (hok : simulate_scenario (years : ℤ) p = Except.ok records) :
    (∀ i : ℕ, ∀ h : i < records.length,
      records[i].bee_colonies = bee_colonies_at p i ∧
      records[i].honey_yield_per_colony
        = (HONEY_MIN + p.climate_factor * (HONEY_MAX - HONEY_MIN))
            * (1 - 0.5 * p.environment_stress) ∧
      records[i].honey_production_tons
        = bee_colonies_at p i * records[i].honey_yield_per_colony / 1000 ∧
      records[i].economic_value_chf
        = bee_colonies_at p i * VALUE_PER_COLONY * ECONOMIC_VALUE_SCALER) ∧
    records.head?.map TimeSeriesRecord.bee_colonies = some DEFAULT_INITIAL_COLONIES := by
  have hn : ((years : ℤ) + 1).toNat = years + 1 := by omega
  have hrec : simulate_records (years : ℤ) p = (List.range (years + 1)).map (record_at p) := by
    simp [simulate_records, hn]
  have hne : (simulate_records (years : ℤ) p).isEmpty = false := by
    rw [hrec]
    cases hcase : (List.range (years + 1)).map (record_at p) with
    | nil =>
      have := congrArg List.length hcase
      simp at this
    | cons a l => simp
  have hrecords : records = (List.range (years + 1)).map (record_at p) := by
    rw [simulate_scenario, hne] at hok
    simpa [hrec] using (Except.ok.injEq _ _).mp hok.symm
  subst hrecords
  constructor
  · intro i h
    simp [List.getElem_map, List.getElem_range, record_at,
      honey_yield_per_colony, honey_production_tons, economic_value_chf]
  · rw [List.head?_map]
    have h0 : (List.range (years + 1)).head? = some 0 := by
      cases hcase : List.range (years + 1) with
      | nil =>
        have := congrArg List.length hcase
        simp at this
      | cons a l =>
        have : a = 0 := by
          have h1 : (List.range (years + 1))[0]? = some a := by simp [hcase]
          exact (by simpa using h1 : 0 = a).symm
        simp [this]
    rw [h0]
    rfl

/-- C4 witness: the theorem instantiated at the concrete series of horizon 1,
with the success and index hypotheses discharged at `i = 0`. -/
theorem derived_quantities_use_pre_update_stock_witness :
    (∀ i : ℕ, ∀ h : i < (simulate_records ((1 : ℕ) : ℤ) ⟨0.3, 0.7, 0.6⟩).length,
      (simulate_records ((1 : ℕ) : ℤ) ⟨0.3, 0.7, 0.6⟩)[i].bee_colonies
          = bee_colonies_at ⟨0.3, 0.7, 0.6⟩ i ∧
      (simulate_records ((1 : ℕ) : ℤ) ⟨0.3, 0.7, 0.6⟩)[i].honey_yield_per_colony
          = (HONEY_MIN + (0.6 : ℚ) * (HONEY_MAX - HONEY_MIN)) * (1 - 0.5 * (0.3 : ℚ)) ∧
      (simulate_records ((1 : ℕ) : ℤ) ⟨0.3, 0.7, 0.6⟩)[i].honey_production_tons
          = bee_colonies_at ⟨0.3, 0.7, 0.6⟩ i
            * (simulate_records ((1 : ℕ) : ℤ) ⟨0.3, 0.7, 0.6⟩)[i].honey_yield_per_colony
            / 1000 ∧
      (simulate_records ((1 : ℕ) : ℤ) ⟨0.3, 0.7, 0.6⟩)[i].economic_value_chf
          = bee_colonies_at ⟨0.3, 0.7, 0.6⟩ i * VALUE_PER_COLONY * ECONOMIC_VALUE_SCALER) ∧
    (simulate_records ((1 : ℕ) : ℤ) ⟨0.3, 0.7, 0.6⟩).head?.map TimeSeriesRecord.bee_colonies
      = some DEFAULT_INITIAL_COLONIES :=
  derived_quantities_use_pre_update_stock 1 ⟨0.3, 0.7, 0.6⟩
    (simulate_records ((1 : ℕ) : ℤ) ⟨0.3, 0.7, 0.6⟩)
    (by simp [simulate_scenario, simulate_records, List.range_succ])

/-- C6 counterexample: at `years = 0` with baseline drivers `(0, 1, 1)` and
scenario drivers `(1, 0, 0)`, the single loss record has
`honey_loss_tons = 4794.49 ≠ 0`, so not every loss field of the single loss
record equals zero. -/
theorem years_zero_losses_counterexample :
    (compute_losses_vs_baseline (simulate_records 0 ⟨0, 1, 1⟩)
        (simulate_records 0 ⟨1, 0, 0⟩)).map LossRecord.honey_loss_tons
      = [479449 / 100] ∧ ((479449 : ℚ) / 100 ≠ 0) := by
  constructor
  · norm_num [compute_losses_vs_baseline, inner_join, with_cumsum, simulate_records,
      record_at, List.range_succ, bee_colonies_at, honey_production_tons,
      honey_yield_per_colony, economic_value_chf, HONEY_MIN, HONEY_MAX,
      VALUE_PER_COLONY, ECONOMIC_VALUE_SCALER, DEFAULT_INITIAL_COLONIES, START_YEAR,
      List.find?, List.filterMap]
  · norm_num

/-- C6 amended: at `years = 0` each series is the single initial-condition
record (`bee_colonies` equal to the initial stock for both scenarios); the
single loss record has both economic loss fields equal to zero, while its
honey loss fields equal the difference of the two scenarios' initial honey
production, which the differing drivers make non-zero in general. -/
theorem years_zero_comparator (pb ps : ScenarioParams) :
    simulate_records 0 pb = [record_at pb 0] ∧
    simulate_records 0 ps = [record_at ps 0] ∧
    (record_at pb 0).bee_colonies = DEFAULT_INITIAL_COLONIES ∧
    (record_at ps 0).bee_colonies = DEFAULT_INITIAL_COLONIES ∧
    compute_losses_vs_baseline (simulate_records 0 pb) (simulate_records 0 ps)
      = [{ t := START_YEAR
           economic_loss_chf := 0
           honey_loss_tons := honey_production_tons pb DEFAULT_INITIAL_COLONIES
             - honey_production_tons ps DEFAULT_INITIAL_COLONIES
           cumulative_economic_loss_chf := 0
           cumulative_honey_loss_tons := honey_production_tons pb DEFAULT_INITIAL_COLONIES
             - honey_production_tons ps DEFAULT_INITIAL_COLONIES }] := by
  refine ⟨by simp [simulate_records, List.range_succ], by simp [simulate_records, List.range_succ],
    rfl, rfl, ?_⟩
  simp [compute_losses_vs_baseline, inner_join, with_cumsum, simulate_records,
    List.range_succ, record_at, List.find?, List.filterMap, economic_value_chf,
    bee_colonies_at]

lemma find?_range_beq (n i : ℕ) :
    (List.range n).find? (fun j => j == i) = if i < n then some i else none := by
  induction n with
  | zero => simp
  | succ m ih =>
    rw [List.range_succ, List.find?_append, ih]
    by_cases h : i < m
    · simp [h, Nat.lt_succ_of_lt h]
    · by_cases h2 : i = m
      · subst h2
        simp [h]
      · have h3 : ¬ i < m + 1 := by omega
        have h4 : (m == i) = false := by simp [Ne.symm h2]
        simp [h, h3, h4]

lemma find?_simulate_t (y i : ℕ) (p : ScenarioParams) :
    (simulate_records (y : ℤ) p).find? (fun s => s.t == START_YEAR + (i : ℤ))
      = if i ≤ y then some (record_at p i) else none := by
  have hn : ((y : ℤ) + 1).toNat = y + 1 := by omega
  have hrec : simulate_records (y : ℤ) p = (List.range (y + 1)).map (record_at p) := by
    simp [simulate_records, hn]
  rw [hrec, List.find?_map]
  have hpr : ((fun s : TimeSeriesRecord => s.t == START_YEAR + (i : ℤ)) ∘ record_at p)
      = fun j : ℕ => j == i := by
    funext j
    simp only [Function.comp_apply, record_at]
    by_cases hji : j = i
    · simp [hji]
    · have h1 : ¬ (START_YEAR + (j : ℤ) = START_YEAR + (i : ℤ)) := by
        intro hcon
        exact hji (by omega)
      simp [h1, hji]
  rw [hpr, find?_range_beq]
  by_cases h : i ≤ y
  · have : i < y + 1 := by omega
    simp [h, this]
  · have : ¬ i < y + 1 := by omega
    simp [h, this]

lemma filterMap_range_if {α : Type*} (y m : ℕ) (g : ℕ → α) :
    (List.range (y + 1)).filterMap (fun i => if i ≤ m then some (g i) else none)
      = (List.range (min y m + 1)).map g := by
  induction y with
  | zero => simp [List.range_succ, Nat.zero_le]
  | succ n ih =>
    rw [List.range_succ, List.filterMap_append, ih]
    by_cases h : n + 1 ≤ m
    · have h1 : min (n + 1) m = n + 1 := by omega
      have h2 : min n m = n := by omega
      simp [h, h1, h2, List.range_succ, List.map_append]
    · have h1 : min (n + 1) m = min n m := by omega
      simp [h, h1]

lemma inner_join_simulate (y1 y2 : ℕ) (p1 p2 : ScenarioParams) :
    inner_join (simulate_records (y1 : ℤ) p1) (simulate_records (y2 : ℤ) p2)
      = (List.range (min y1 y2 + 1)).map fun i => (record_at p1 i, record_at p2 i) := by
  have hn : ((y1 : ℤ) + 1).toNat = y1 + 1 := by omega
  have hrec : simulate_records (y1 : ℤ) p1 = (List.range (y1 + 1)).map (record_at p1) := by
    simp [simulate_records, hn]
  rw [inner_join, hrec, List.filterMap_map]
  have hf : ((fun b : TimeSeriesRecord =>
        ((simulate_records (y2 : ℤ) p2).find? fun s => s.t == b.t).map fun s => (b, s))
        ∘ record_at p1)
      = fun i : ℕ => if i ≤ y2 then some (record_at p1 i, record_at p2 i) else none := by
    funext i
    have ht : (record_at p1 i).t = START_YEAR + (i : ℤ) := rfl
    simp only [Function.comp_apply, ht, find?_simulate_t]
    by_cases h : i ≤ y2
    · simp [h]
    · simp [h]
  rw [hf, filterMap_range_if]

/-- C9 counterexample: a baseline series over years 2022-2024 and a scenario
series over years 2022-2023 have unequal year index sets, yet the comparator
returns a normal 2-record loss series (the overlap) — it silently truncates
instead of failing. -/
theorem mismatched_horizons_counterexample :
    (simulate_records 2 ⟨0.3, 0.7, 0.6⟩).map (fun r => r.t) = [2022, 2023, 2024] ∧
    (simulate_records 1 ⟨0.3, 0.7, 0.6⟩).map (fun r => r.t) = [2022, 2023] ∧
    (compute_losses_vs_baseline (simulate_records 2 ⟨0.3, 0.7, 0.6⟩)
        (simulate_records 1 ⟨0.3, 0.7, 0.6⟩)).length = 2 := by
  refine ⟨?_, ?_, ?_⟩
  · simp [simulate_records, List.range_succ, record_at, START_YEAR]
  · simp [simulate_records, List.range_succ, record_at, START_YEAR]
  · have h2 : ((2 : ℕ) : ℤ) = (2 : ℤ) := rfl
    have h1 : ((1 : ℕ) : ℤ) = (1 : ℤ) := rfl
    rw [compute_losses_vs_baseline, with_cumsum_length, List.length_map, ← h2, ← h1,
      inner_join_simulate]
    simp

/-- C9 amended: on series with mismatched horizons the comparator does not
fail; it silently inner-joins on the year index and returns exactly one loss
record per overlapping year, i.e. `min y1 y2 + 1` records. -/
theorem mismatched_horizons_truncate (y1 y2 : ℕ) (p1 p2 : ScenarioParams) :
    (compute_losses_vs_baseline (simulate_records (y1 : ℤ) p1)
        (simulate_records (y2 : ℤ) p2)).length = min y1 y2 + 1 := by
  rw [compute_losses_vs_baseline, with_cumsum_length, List.length_map,
    inner_join_simulate]
  simp

/-- All three drivers lie in the normalized interval `[0, 1]`. -/
def ValidParams (p : ScenarioParams) : Prop :=
  0 ≤ p.environment_stress ∧ p.environment_stress ≤ 1 ∧
  0 ≤ p.disease_management ∧ p.disease_management ≤ 1 ∧
  0 ≤ p.climate_factor ∧ p.climate_factor ≤ 1

lemma winter_loss_penalty_eq : winter_loss_penalty = 1 / 12 := by
  norm_num [winter_loss_penalty, avg_winter_months]

/-- The stock-independent part of the effective loss rate. -/
def loss_base (p : ScenarioParams) : ℚ :=
  BASE_LOSS_RATE *
    ((1 + p.environment_stress + 0.5 * (1 - p.disease_management) + winter_loss_penalty)
      * (1 + CLIMATE_LOSS_FACTOR * (1 - p.climate_factor)))

lemma effective_loss_factored (p : ScenarioParams) (c : ℚ) :
    effective_loss p c = loss_base p * (1 + DENSITY_LOSS_FACTOR * (c / CARRYING_CAPACITY)) := by
  simp only [effective_loss, loss_base]
  ring

lemma eg_nonneg {p : ScenarioParams} (hp : ValidParams p) : 0 ≤ effective_growth p := by
  obtain ⟨h1, h2, h3, h4, h5, h6⟩ := hp
  simp only [effective_growth, BASE_GROWTH_RATE, CLIMATE_GROWTH_FACTOR]
  have ha : (0 : ℚ) ≤ 1 + 0.5 * (1 - p.environment_stress) + 0.5 * p.disease_management := by
    linarith
  have hb : (0 : ℚ) ≤ 0.7 + 1.0 * p.climate_factor := by linarith
  have := mul_nonneg (mul_nonneg (show (0:ℚ) ≤ 0.045 by norm_num) ha) hb
  linarith

lemma eg_le {p : ScenarioParams} (hp : ValidParams p) :
    effective_growth p ≤ 153 / 1000 := by
  obtain ⟨h1, h2, h3, h4, h5, h6⟩ := hp
  simp only [effective_growth, BASE_GROWTH_RATE, CLIMATE_GROWTH_FACTOR]
  have ha : 1 + 0.5 * (1 - p.environment_stress) + 0.5 * p.disease_management ≤ 2 := by
    linarith
  have ha0 : (0 : ℚ) ≤ 1 + 0.5 * (1 - p.environment_stress) + 0.5 * p.disease_management := by
    linarith
  have hb : 0.7 + 1.0 * p.climate_factor ≤ 17 / 10 := by linarith
  have hb0 : (0 : ℚ) ≤ 0.7 + 1.0 * p.climate_factor := by linarith
  have step1 : (0.045 : ℚ) * (1 + 0.5 * (1 - p.environment_stress)
      + 0.5 * p.disease_management) ≤ 0.045 * 2 :=
    mul_le_mul_of_nonneg_left ha (by norm_num)
  have step2 := mul_le_mul step1 hb hb0 (by norm_num : (0:ℚ) ≤ 0.045 * 2)
  have : (0.045 : ℚ) * 2 * (17 / 10) = 153 / 1000 := by norm_num
  linarith

lemma lb_nonneg {p : ScenarioParams} (hp : ValidParams p) : 0 ≤ loss_base p := by
  obtain ⟨h1, h2, h3, h4, h5, h6⟩ := hp
  simp only [loss_base, BASE_LOSS_RATE, CLIMATE_LOSS_FACTOR, winter_loss_penalty_eq]
  have ha : (0 : ℚ) ≤ 1 + p.environment_stress + 0.5 * (1 - p.disease_management) + 1 / 12 := by
    linarith
  have hb : (0 : ℚ) ≤ 1 + 0.5 * (1 - p.climate_factor) := by linarith
  have := mul_nonneg (mul_nonneg (show (0:ℚ) ≤ 0.04 by norm_num) ha) hb
  linarith [mul_nonneg ha hb, mul_nonneg (show (0:ℚ) ≤ 0.04 by norm_num) (mul_nonneg ha hb)]

lemma lb_le {p : ScenarioParams} (hp : ValidParams p) : loss_base p ≤ 31 / 200 := by
  obtain ⟨h1, h2, h3, h4, h5, h6⟩ := hp
  simp only [loss_base, BASE_LOSS_RATE, CLIMATE_LOSS_FACTOR, winter_loss_penalty_eq]
  have ha : 1 + p.environment_stress + 0.5 * (1 - p.disease_management) + 1 / 12 ≤ 31 / 12 := by
    linarith
  have ha0 : (0 : ℚ) ≤ 1 + p.environment_stress + 0.5 * (1 - p.disease_management) + 1 / 12 := by
    linarith
  have hb : 1 + 0.5 * (1 - p.climate_factor) ≤ 3 / 2 := by linarith
  have hb0 : (0 : ℚ) ≤ 1 + 0.5 * (1 - p.climate_factor) := by linarith
  have step1 := mul_le_mul ha hb hb0 (by linarith : (0:ℚ) ≤ 31 / 12)
  have step2 : (0.04 : ℚ) * ((1 + p.environment_stress + 0.5 * (1 - p.disease_management)
      + 1 / 12) * (1 + 0.5 * (1 - p.climate_factor))) ≤ 0.04 * ((31 / 12) * (3 / 2)) :=
    mul_le_mul_of_nonneg_left step1 (by norm_num)
  have : (0.04 : ℚ) * ((31 / 12) * (3 / 2)) = 31 / 200 := by norm_num
  linarith

lemma el_nonneg {p : ScenarioParams} {c : ℚ} (hp : ValidParams p) (hc0 : 0 ≤ c) :
    0 ≤ effective_loss p c := by
  rw [effective_loss_factored]
  have hdiv : (0 : ℚ) ≤ c / CARRYING_CAPACITY :=
    div_nonneg hc0 (by norm_num [CARRYING_CAPACITY])
  have hfac : (0 : ℚ) ≤ 1 + DENSITY_LOSS_FACTOR * (c / CARRYING_CAPACITY) := by
    have := mul_nonneg (show (0:ℚ) ≤ DENSITY_LOSS_FACTOR by norm_num [DENSITY_LOSS_FACTOR]) hdiv
    linarith
  exact mul_nonneg (lb_nonneg hp) hfac

lemma el_le {p : ScenarioParams} {c : ℚ} (hp : ValidParams p) (hc0 : 0 ≤ c)
    (hcK : c ≤ CARRYING_CAPACITY) : effective_loss p c ≤ 1705 / 10000 := by
  rw [effective_loss_factored]
  have hdiv0 : (0 : ℚ) ≤ c / CARRYING_CAPACITY :=
    div_nonneg hc0 (by norm_num [CARRYING_CAPACITY])
  have hdiv1 : c / CARRYING_CAPACITY ≤ 1 :=
    (div_le_one (by norm_num [CARRYING_CAPACITY])).mpr hcK
  have hfac : 1 + DENSITY_LOSS_FACTOR * (c / CARRYING_CAPACITY) ≤ 11 / 10 := by
    simp only [DENSITY_LOSS_FACTOR]
    nlinarith
  have hfac0 : (0 : ℚ) ≤ 1 + DENSITY_LOSS_FACTOR * (c / CARRYING_CAPACITY) := by
    have := mul_nonneg (show (0:ℚ) ≤ DENSITY_LOSS_FACTOR by norm_num [DENSITY_LOSS_FACTOR]) hdiv0
    linarith
  have := mul_le_mul (lb_le hp) hfac hfac0 (by norm_num : (0:ℚ) ≤ 31 / 200)
  have heval : (31 : ℚ) / 200 * (11 / 10) = 1705 / 10000 := by norm_num
  linarith

lemma step_pos {p : ScenarioParams} {c : ℚ} (hp : ValidParams p)
    (hc0 : 0 < c) (hcK : c < CARRYING_CAPACITY) : 0 < bee_colonies_step p c := by
  have hK : (0 : ℚ) < CARRYING_CAPACITY := by norm_num [CARRYING_CAPACITY]
  have hdiv1 : c / CARRYING_CAPACITY < 1 := (div_lt_one hK).mpr hcK
  have hgrow : 0 ≤ c * effective_growth p * (1 - c / CARRYING_CAPACITY) :=
    mul_nonneg (mul_nonneg hc0.le (eg_nonneg hp)) (by linarith)
  have hloss : c * effective_loss p c ≤ c * (1705 / 10000) :=
    mul_le_mul_of_nonneg_left (el_le hp hc0.le hcK.le) hc0.le
  simp only [bee_colonies_step, colony_growth, colony_losses]
  linarith

lemma step_lt_K {p : ScenarioParams} {c : ℚ} (hp : ValidParams p)
    (hc0 : 0 < c) (hcK : c < CARRYING_CAPACITY) :
    bee_colonies_step p c < CARRYING_CAPACITY := by
  have hK : (0 : ℚ) < CARRYING_CAPACITY := by norm_num [CARRYING_CAPACITY]
  have hdiv0 : (0 : ℚ) ≤ c / CARRYING_CAPACITY := div_nonneg hc0.le hK.le
  have hdiv1 : c / CARRYING_CAPACITY ≤ 1 := (div_le_one hK).mpr hcK.le
  have hloss0 : 0 ≤ c * effective_loss p c := mul_nonneg hc0.le (el_nonneg hp hc0.le)
  have hgcK : effective_growth p * (c / CARRYING_CAPACITY) < 1 := by
    have h1 : effective_growth p * (c / CARRYING_CAPACITY) ≤ (153 / 1000) * 1 :=
      mul_le_mul (eg_le hp) hdiv1 hdiv0 (by norm_num)
    linarith
  have hfact : CARRYING_CAPACITY - (c + c * effective_growth p * (1 - c / CARRYING_CAPACITY))
      = (CARRYING_CAPACITY - c) * (1 - effective_growth p * (c / CARRYING_CAPACITY)) := by
    simp only [CARRYING_CAPACITY]
    ring
  have hprod : 0 < (CARRYING_CAPACITY - c) * (1 - effective_growth p * (c / CARRYING_CAPACITY)) :=
    mul_pos (by linarith) (by linarith)
  simp only [bee_colonies_step, colony_growth, colony_losses]
  linarith

lemma step_mono_stock {p : ScenarioParams} {c1 c2 : ℚ} (hp : ValidParams p)
    (h0 : 0 ≤ c1) (h12 : c1 ≤ c2) (h2K : c2 ≤ CARRYING_CAPACITY) :
    bee_colonies_step p c1 ≤ bee_colonies_step p c2 := by
  have h2K' : c2 ≤ 350000 := by
    simpa [CARRYING_CAPACITY] using h2K
  have hexp : bee_colonies_step p c2 - bee_colonies_step p c1
      = (c2 - c1) * (1 + effective_growth p * (1 - (c1 + c2) / 350000)
          - loss_base p * (1 + (1 / 10) * ((c1 + c2) / 350000))) := by
    simp only [bee_colonies_step, colony_growth, colony_losses, effective_loss,
      loss_base, DENSITY_LOSS_FACTOR, CARRYING_CAPACITY]
    ring
  have hs0 : (0 : ℚ) ≤ (c1 + c2) / 350000 := by
    apply div_nonneg (by linarith) (by norm_num)
  have hs2 : (c1 + c2) / 350000 ≤ 2 := by
    rw [div_le_iff₀ (by norm_num : (0:ℚ) < 350000)]
    linarith
  have hg0 := eg_nonneg hp
  have hgle := eg_le hp
  have hlb0 := lb_nonneg hp
  have hlble := lb_le hp
  have h1 : -(153 / 1000) ≤ effective_growth p * (1 - (c1 + c2) / 350000) := by
    have := mul_nonneg hg0 (show (0:ℚ) ≤ 2 - (c1 + c2) / 350000 by linarith)
    nlinarith
  have h2 : loss_base p * (1 + (1 / 10) * ((c1 + c2) / 350000)) ≤ 93 / 500 := by
    have hfle : 1 + (1 / 10) * ((c1 + c2) / 350000) ≤ 6 / 5 := by linarith
    have hf0 : (0 : ℚ) ≤ 1 + (1 / 10) * ((c1 + c2) / 350000) := by linarith
    have := mul_le_mul hlble hfle hf0 (by norm_num : (0:ℚ) ≤ 31 / 200)
    linarith
  have hbr : 0 ≤ 1 + effective_growth p * (1 - (c1 + c2) / 350000)
      - loss_base p * (1 + (1 / 10) * ((c1 + c2) / 350000)) := by linarith
  nlinarith [mul_nonneg (sub_nonneg.mpr h12) hbr]

lemma eg_mono {pb pw : ScenarioParams} (hb : ValidParams pb) (hw : ValidParams pw)
    (hes : pb.environment_stress ≤ pw.environment_stress)
    (hdm : pw.disease_management ≤ pb.disease_management)
    (hcf : pw.climate_factor ≤ pb.climate_factor) :
    effective_growth pw ≤ effective_growth pb := by
  obtain ⟨b1, b2, b3, b4, b5, b6⟩ := hb
  obtain ⟨w1, w2, w3, w4, w5, w6⟩ := hw
  simp only [effective_growth, BASE_GROWTH_RATE, CLIMATE_GROWTH_FACTOR]
  have hAle : 1 + 0.5 * (1 - pw.environment_stress) + 0.5 * pw.disease_management
      ≤ 1 + 0.5 * (1 - pb.environment_stress) + 0.5 * pb.disease_management := by linarith
  have hAb0 : (0 : ℚ) ≤ 1 + 0.5 * (1 - pb.environment_stress)
      + 0.5 * pb.disease_management := by linarith
  have hBle : 0.7 + 1.0 * pw.climate_factor ≤ 0.7 + 1.0 * pb.climate_factor := by linarith
  have hB0 : (0 : ℚ) ≤ 0.7 + 1.0 * pw.climate_factor := by linarith
  exact mul_le_mul (mul_le_mul_of_nonneg_left hAle (by norm_num)) hBle hB0
    (mul_nonneg (by norm_num) hAb0)

lemma lb_mono {pb pw : ScenarioParams} (hb : ValidParams pb) (hw : ValidParams pw)
    (hes : pb.environment_stress ≤ pw.environment_stress)
    (hdm : pw.disease_management ≤ pb.disease_management)
    (hcf : pw.climate_factor ≤ pb.climate_factor) :
    loss_base pb ≤ loss_base pw := by
  obtain ⟨b1, b2, b3, b4, b5, b6⟩ := hb
  obtain ⟨w1, w2, w3, w4, w5, w6⟩ := hw
  simp only [loss_base, BASE_LOSS_RATE, CLIMATE_LOSS_FACTOR, winter_loss_penalty_eq]
  have hA : 1 + pb.environment_stress + 0.5 * (1 - pb.disease_management) + 1 / 12
      ≤ 1 + pw.environment_stress + 0.5 * (1 - pw.disease_management) + 1 / 12 := by linarith
  have hA0 : (0 : ℚ) ≤ 1 + pw.environment_stress + 0.5 * (1 - pw.disease_management)
      + 1 / 12 := by linarith
  have hB : 1 + 0.5 * (1 - pb.climate_factor) ≤ 1 + 0.5 * (1 - pw.climate_factor) := by
    linarith
  have hB0 : (0 : ℚ) ≤ 1 + 0.5 * (1 - pb.climate_factor) := by linarith
  exact mul_le_mul_of_nonneg_left (mul_le_mul hA hB hB0 hA0) (by norm_num)

lemma step_mono_params {pb pw : ScenarioParams} {c : ℚ}
    (hb : ValidParams pb) (hw : ValidParams pw)
    (hes : pb.environment_stress ≤ pw.environment_stress)
    (hdm : pw.disease_management ≤ pb.disease_management)
    (hcf : pw.climate_factor ≤ pb.climate_factor)
    (hc0 : 0 ≤ c) (hcK : c ≤ CARRYING_CAPACITY) :
    bee_colonies_step pw c ≤ bee_colonies_step pb c := by
  have hcK' : c ≤ 350000 := by simpa [CARRYING_CAPACITY] using hcK
  have hgw := eg_mono hb hw hes hdm hcf
  have hlw := lb_mono hb hw hes hdm hcf
  have hexpw : bee_colonies_step pw c = c + (c * (1 - c / 350000)) * effective_growth pw
      - (c * (1 + (1 / 10) * (c / 350000))) * loss_base pw := by
    simp only [bee_colonies_step, colony_growth, colony_losses, effective_loss,
      loss_base, DENSITY_LOSS_FACTOR, CARRYING_CAPACITY]
    ring
  have hexpb : bee_colonies_step pb c = c + (c * (1 - c / 350000)) * effective_growth pb
      - (c * (1 + (1 / 10) * (c / 350000))) * loss_base pb := by
    simp only [bee_colonies_step, colony_growth, colony_losses, effective_loss,
      loss_base, DENSITY_LOSS_FACTOR, CARRYING_CAPACITY]
    ring
  have hdiv0 : (0 : ℚ) ≤ c / 350000 := div_nonneg hc0 (by norm_num)
  have hdiv1 : c / 350000 ≤ 1 := by
    rw [div_le_one (by norm_num : (0:ℚ) < 350000)]
    exact hcK'
  have ht1 : 0 ≤ c * (1 - c / 350000) := mul_nonneg hc0 (by linarith)
  have ht2 : 0 ≤ c * (1 + (1 / 10) * (c / 350000)) := mul_nonneg hc0 (by linarith)
  have e1 : (c * (1 - c / 350000)) * effective_growth pw
      ≤ (c * (1 - c / 350000)) * effective_growth pb :=
    mul_le_mul_of_nonneg_left hgw ht1
  have e2 : (c * (1 + (1 / 10) * (c / 350000))) * loss_base pb
      ≤ (c * (1 + (1 / 10) * (c / 350000))) * loss_base pw :=
    mul_le_mul_of_nonneg_left hlw ht2
  rw [hexpw, hexpb]
  linarith

lemma colonies_at_bounds {p : ScenarioParams} (hp : ValidParams p) (n : ℕ) :
    0 < bee_colonies_at p n ∧ bee_colonies_at p n < CARRYING_CAPACITY := by
  induction n with
  | zero =>
    constructor <;> norm_num [bee_colonies_at, DEFAULT_INITIAL_COLONIES, CARRYING_CAPACITY]
  | succ m ih =>
    exact ⟨step_pos hp ih.1 ih.2, step_lt_K hp ih.1 ih.2⟩

lemma colonies_at_mono {pb pw : ScenarioParams} (hb : ValidParams pb) (hw : ValidParams pw)
    (hes : pb.environment_stress ≤ pw.environment_stress)
    (hdm : pw.disease_management ≤ pb.disease_management)
    (hcf : pw.climate_factor ≤ pb.climate_factor) (n : ℕ) :
    bee_colonies_at pw n ≤ bee_colonies_at pb n := by
  induction n with
  | zero => exact le_rfl
  | succ m ih =>
    have hwb := colonies_at_bounds hw m
    have hbb := colonies_at_bounds hb m
    calc bee_colonies_step pw (bee_colonies_at pw m)
        ≤ bee_colonies_step pb (bee_colonies_at pw m) :=
          step_mono_params hb hw hes hdm hcf hwb.1.le hwb.2.le
      _ ≤ bee_colonies_step pb (bee_colonies_at pb m) :=
          step_mono_stock hb hwb.1.le ih hbb.2.le

lemma simulate_getLast (years : ℕ) (p : ScenarioParams) :
    (simulate_records (years : ℤ) p).getLast?.map TimeSeriesRecord.bee_colonies
      = some (bee_colonies_at p years) := by
  have hn : ((years : ℤ) + 1).toNat = years + 1 := by omega
  have hrec : simulate_records (years : ℤ) p
      = (List.range (years + 1)).map (record_at p) := by
    simp [simulate_records, hn]
  rw [hrec, List.range_succ, List.map_append]
  simp [List.getLast?_concat, record_at]

/-- C10: for drivers in `[0, 1]`, every record of the simulated series keeps
its colony count strictly between 0 and the carrying capacity 350000, starting
from the default initial population — so `bee_colonies ≥ 0` holds even though
the update applies no floor. -/
theorem colonies_within_bounds (p : ScenarioParams) (hp : ValidParams p)
    (years : ℕ) (r : TimeSeriesRecord) (hr : r ∈ simulate_records (years : ℤ) p) :
    0 < r.bee_colonies ∧ r.bee_colonies < CARRYING_CAPACITY := by
  have hn : ((years : ℤ) + 1).toNat = years + 1 := by omega
  have hrec : simulate_records (years : ℤ) p
      = (List.range (years + 1)).map (record_at p) := by
    simp [simulate_records, hn]
  rw [hrec] at hr
  obtain ⟨i, hi, hri⟩ := List.mem_map.mp hr
  rw [← hri]
  exact colonies_at_bounds hp i

/-- C10 witness: the theorem instantiated at the concrete drivers
`(0.3, 0.7, 0.6)`, horizon 0, and the initial record. -/
theorem colonies_within_bounds_witness :
    0 < (record_at ⟨0.3, 0.7, 0.6⟩ 0).bee_colonies ∧
      (record_at ⟨0.3, 0.7, 0.6⟩ 0).bee_colonies < CARRYING_CAPACITY :=
  colonies_within_bounds ⟨0.3, 0.7, 0.6⟩ (by norm_num [ValidParams]) 0
    (record_at ⟨0.3, 0.7, 0.6⟩ 0)
    (by simp [simulate_records, List.range_succ])

/-- C7: with all drivers in `[0, 1]` and the scenario strictly worse than the
baseline in every driver (higher stress, lower disease management, lower
climate factor), the scenario's final colony count never exceeds the
baseline's, for every horizon. -/
theorem worse_drivers_lower_final (pb pw : ScenarioParams)
    (hb : ValidParams pb) (hw : ValidParams pw)
    (hes : pb.environment_stress < pw.environment_stress)
    (hdm : pw.disease_management < pb.disease_management)
    (hcf : pw.climate_factor < pb.climate_factor) (years : ℕ) :
    ∃ final_w final_b : ℚ,
      (simulate_records (years : ℤ) pw).getLast?.map TimeSeriesRecord.bee_colonies
        = some final_w ∧
      (simulate_records (years : ℤ) pb).getLast?.map TimeSeriesRecord.bee_colonies
        = some final_b ∧
      final_w ≤ final_b :=
  ⟨bee_colonies_at pw years, bee_colonies_at pb years,
    simulate_getLast years pw, simulate_getLast years pb,
    colonies_at_mono hb hw hes.le hdm.le hcf.le years⟩

/-- C7 witness: the theorem instantiated at concrete baseline `(0.2, 0.8, 0.7)`
and strictly-worse scenario `(0.9, 0.1, 0.2)` over horizon 1. -/
theorem worse_drivers_lower_final_witness :
    ∃ final_w final_b : ℚ,
      (simulate_records ((1 : ℕ) : ℤ) ⟨0.9, 0.1, 0.2⟩).getLast?.map
          TimeSeriesRecord.bee_colonies = some final_w ∧
      (simulate_records ((1 : ℕ) : ℤ) ⟨0.2, 0.8, 0.7⟩).getLast?.map
          TimeSeriesRecord.bee_colonies = some final_b ∧
      final_w ≤ final_b :=
  worse_drivers_lower_final ⟨0.2, 0.8, 0.7⟩ ⟨0.9, 0.1, 0.2⟩
    (by norm_num [ValidParams]) (by norm_num [ValidParams])
    (by norm_num) (by norm_num) (by norm_num) 1

end BeeModel
